import Mathlib

/-!
Verification of `FullHistoryMerger` (src/Utilities/Mergers/src/FullHistoryMerger.cxx)
against its natural-language specification.

The C++ class keeps, per merge instance:
  * `mFirstObjectSerialized` : a (sourceID, serialized bytes) pair — the "template",
    the first object seen since the last reset, kept in serialized form;
  * `mCache` : a map sourceID → deserialized object for every other origin;
  * `mMergedObject` : a variant (monostate | TObjectPtr | VectorOfTObjectPtrs |
    MergeInterfacePtr) holding the last merged result;
  * five counters: cyclesSinceReset, objectsMerged (this cycle), totalObjectsMerged,
    updatesReceived (this cycle), totalUpdatesReceived.

We embed the state as a Lean structure, the serialized payloads as an inductive
(decoding either succeeds with a typed object or fails), and each member function
as a state-passing Lean function.  C++ exceptions are modelled by returning the
state reached at the throw point together with `some errorMessage`; observable
output (objects handed to the egress allocator, metrics sent to the monitoring
collector) is collected in an `Obs` record.
-/

namespace Mergers

/-- The three non-empty alternatives of the C++ `ObjectStore` variant:
a plain `TObject`, an object implementing `MergeInterface`, and a vector of
`TObject`s (the Collection kind).  The payload carried by a `TObject` is opaque
to the merger; we model it by an integer so that merging is executable. -/
inductive MObject where
  | tobj (v : Int)
  | mergeIface (v : Int)
  | vec (vs : List Int)
  deriving DecidableEq, Repr

/-- The C++ `ObjectStore` variant: `std::monostate` or one of the three object
kinds. -/
inductive ObjectStore where
  | monostate
  | obj (o : MObject)
  deriving DecidableEq, Repr

/-- Serialized bytes of one update, as the merger sees them: they either
deserialize to an `MObject` or fail to decode. -/
inductive RawPayload where
  | good (o : MObject)
  | bad (msg : String)
  deriving DecidableEq, Repr

/-- Modelled from the spec: `object_store_helpers::extractObjectFrom`
(ObjectStore.cxx, not under src/) deserializes a serialized payload into an
`ObjectStore`; a payload that cannot be deserialized into the expected kind is
a DecodeFailure, surfaced to the caller as an error. -/
def extractObjectFrom : RawPayload → Except String MObject
  | .good o => .ok o
  | .bad msg => .error msg

/-- One ingress update (`DataRef`): the header fields from which the sourceID
is built, and the payload bytes. -/
structure DataRef where
  dataOrigin : String
  dataDescription : String
  subSpecification : Nat
  payload : RawPayload
  deriving DecidableEq, Repr

/-- `std::string sourceID = dataOrigin + "/" + dataDescription + "/" +
std::to_string(subSpecification)` (FullHistoryMerger.cxx line 120). -/
def sourceId (ref : DataRef) : String :=
  ref.dataOrigin ++ "/" ++ ref.dataDescription ++ "/" ++ toString ref.subSpecification

/-- The `MergedObjectTimespan` policy discriminator from `MergerConfig`. -/
inductive TimespanValue where
  | NCycles
  | LastDifference
  deriving DecidableEq, Repr

structure MergedObjectTimespan where
  value : TimespanValue
  param : Nat
  deriving DecidableEq, Repr

structure MergerConfig where
  mergedObjectTimespan : MergedObjectTimespan
  deriving DecidableEq, Repr

/-- The mutable state of one `FullHistoryMerger` instance.
`firstObjectId`/`firstObjectPayload` model `mFirstObjectSerialized` (the empty
string and `none` stand for the cleared pair with null payload pointer);
`cache` models `mCache` as an association list keyed by sourceID. -/
structure MergerState where
  firstObjectId : String
  firstObjectPayload : Option RawPayload
  cache : List (String × MObject)
  mergedObject : ObjectStore
  cyclesSinceReset : Nat
  totalObjectsMerged : Nat
  objectsMerged : Nat
  totalUpdatesReceived : Nat
  updatesReceived : Nat
  deriving DecidableEq, Repr

/-- The freshly constructed instance: counters zero, no template, empty cache. -/
def initState : MergerState :=
  { firstObjectId := ""
    firstObjectPayload := none
    cache := []
    mergedObject := .monostate
    cyclesSinceReset := 0
    totalObjectsMerged := 0
    objectsMerged := 0
    totalUpdatesReceived := 0
    updatesReceived := 0 }

/-- `mCache[sourceID] = v`: overwrite the entry if the key is present,
otherwise insert it (std::map::operator[] followed by assignment). -/
def mapInsert (m : List (String × MObject)) (k : String) (v : MObject) :
    List (String × MObject) :=
  match m with
  | [] => [(k, v)]
  | (k₀, v₀) :: rest =>
      if k₀ = k then (k, v) :: rest else (k₀, v₀) :: mapInsert rest k v

/-- `FullHistoryMerger::clear()` (lines 98-114): releases the template,
empties the cache, resets the merged object to monostate and zeroes all five
counters, the cumulative totals included. -/
def clear (_s : MergerState) : MergerState := initState

/-- `FullHistoryMerger::updateCache(ref)` (lines 116-142).  If no template is
set yet, or the update comes from the template's origin, the serialized bytes
overwrite the template (no deserialization).  Otherwise the payload is
deserialized and overwrites the cache entry for its sourceID; a decode failure
propagates as an exception and, because the right-hand side of
`mCache[sourceID] = extractObjectFrom(ref)` is evaluated first, leaves the
state unchanged. -/
def updateCache (s : MergerState) (ref : DataRef) : MergerState × Option String :=
  let sid := sourceId ref
  if s.firstObjectId = "" ∨ s.firstObjectId = sid then
    ({ s with firstObjectId := sid, firstObjectPayload := some ref.payload }, none)
  else
    match extractObjectFrom ref.payload with
    | .ok o => ({ s with cache := mapInsert s.cache sid o }, none)
    | .error msg => (s, some msg)

/-- The data-input loop of `FullHistoryMerger::run` (lines 72-77): every
non-timer input is passed to `updateCache` and then counted in
`mUpdatesReceived`.  An exception thrown by `updateCache` aborts the loop. -/
def runLoop (s : MergerState) : List DataRef → MergerState × Option String
  | [] => (s, none)
  | ref :: rest =>
      match updateCache s ref with
      | (s₁, none) =>
          runLoop { s₁ with updatesReceived := s₁.updatesReceived + 1 } rest
      | (s₁, some msg) => (s₁, some msg)

/-- The merge loop for the `TObjectPtr` kind (lines 158-165): each cache entry
is fetched with `std::get<TObjectPtr>` (throwing on a kind mismatch), merged
into the accumulator by `algorithm::merge`, and counted once.  Modelled from
the spec: `algorithm::merge` for single objects (MergerAlgorithm.cxx, not under
src/) is the external elementwise combine, here numeric addition on the opaque
value. -/
def mergeTObjLoop (acc : Int) (objsMerged : Nat) :
    List (String × MObject) → Int × Nat × Option String
  | [] => (acc, objsMerged, none)
  | (_, .tobj v) :: rest => mergeTObjLoop (acc + v) (objsMerged + 1) rest
  | (_, _) :: _ => (acc, objsMerged, some "bad variant access")

/-- The merge loop for the `MergeInterfacePtr` kind (lines 167-174):
`target->merge(other.get())` per entry, counted once.  Modelled from the spec:
the custom merge operation absorbs the other instance; opaque, here numeric
addition. -/
def mergeIfaceLoop (acc : Int) (objsMerged : Nat) :
    List (String × MObject) → Int × Nat × Option String
  | [] => (acc, objsMerged, none)
  | (_, .mergeIface v) :: rest => mergeIfaceLoop (acc + v) (objsMerged + 1) rest
  | (_, _) :: _ => (acc, objsMerged, some "bad variant access")

/-- Modelled from the spec: `algorithm::merge` on two vectors of TObjects
(MergerAlgorithm.cxx, not under src/) requires both sides to have equal length
and combines them pairwise by position, keeping the length. -/
def vecMerge (target other : List Int) : Except String (List Int) :=
  if target.length = other.length then
    .ok (List.zipWith (fun a b => a + b) target other)
  else
    .error "vector size mismatch"

/-- The merge loop for the `VectorOfTObjectPtrs` kind (lines 176-183): each
entry is merged elementwise into the accumulator and the counter grows by
`target.size()` — the length of the merged vector — rather than by 1. -/
def mergeVecLoop (acc : List Int) (objsMerged : Nat) :
    List (String × MObject) → List Int × Nat × Option String
  | [] => (acc, objsMerged, none)
  | (_, .vec vs) :: rest =>
      match vecMerge acc vs with
      | .ok acc₁ => mergeVecLoop acc₁ (objsMerged + acc₁.length) rest
      | .error msg => (acc, objsMerged, some msg)
  | (_, _) :: _ => (acc, objsMerged, some "bad variant access")

/-- `FullHistoryMerger::mergeCache()` (lines 144-184).  If no object has
arrived yet (null template payload) it returns at once.  Otherwise the
template bytes are deserialized fresh into `mMergedObject`, `mObjectsMerged`
is incremented once (whatever the kind), and every cache entry is merged in by
the loop matching the template's kind. -/
def mergeCache (s : MergerState) : MergerState × Option String :=
  match s.firstObjectPayload with
  | none => (s, none)
  | some raw =>
      match extractObjectFrom raw with
      | .error msg => (s, some msg)
      | .ok first =>
          let s₁ := { s with mergedObject := .obj first,
                             objectsMerged := s.objectsMerged + 1 }
          match first with
          | .tobj v =>
              let r := mergeTObjLoop v s₁.objectsMerged s₁.cache
              ({ s₁ with mergedObject := .obj (.tobj r.1), objectsMerged := r.2.1 },
               r.2.2)
          | .mergeIface v =>
              let r := mergeIfaceLoop v s₁.objectsMerged s₁.cache
              ({ s₁ with mergedObject := .obj (.mergeIface r.1),
                         objectsMerged := r.2.1 },
               r.2.2)
          | .vec vs =>
              let r := mergeVecLoop vs s₁.objectsMerged s₁.cache
              ({ s₁ with mergedObject := .obj (.vec r.1), objectsMerged := r.2.1 },
               r.2.2)

/-- Observable output of one call: the merged objects handed to the egress
allocator and the (name, value) metrics sent to the monitoring collector. -/
structure Obs where
  emitted : List ObjectStore
  metrics : List (String × Nat)
  deriving DecidableEq, Repr

def Obs.empty : Obs := { emitted := [], metrics := [] }

def Obs.append (a b : Obs) : Obs :=
  { emitted := a.emitted ++ b.emitted, metrics := a.metrics ++ b.metrics }

/-- `FullHistoryMerger::publish(allocator)` (lines 186-206).  With a monostate
merged object nothing is emitted (only an informational log); otherwise the
object is handed to the egress via `object_store_helpers::snapshot`, whose
success is the external collaborator's report `snapshotOk` — on failure a
`std::runtime_error` is thrown before any counter is touched.  After the
branch the per-cycle counters are flushed into the totals, the five metrics
are sent, and the per-cycle counters are zeroed. -/
def publish (snapshotOk : Bool) (s : MergerState) :
    MergerState × Obs × Option String :=
  match s.mergedObject with
  | .monostate =>
      let s₁ := { s with
        totalObjectsMerged := s.totalObjectsMerged + s.objectsMerged,
        totalUpdatesReceived := s.totalUpdatesReceived + s.updatesReceived }
      ({ s₁ with objectsMerged := 0, updatesReceived := 0 },
       { emitted := [],
         metrics := [("total_objects_merged", s₁.totalObjectsMerged),
                     ("objects_merged_since_last_publication", s₁.objectsMerged),
                     ("total_updates_received", s₁.totalUpdatesReceived),
                     ("updates_received_since_last_publication", s₁.updatesReceived),
                     ("cycles_since_reset", s₁.cyclesSinceReset)] },
       none)
  | .obj o =>
      if snapshotOk then
        let s₁ := { s with
          totalObjectsMerged := s.totalObjectsMerged + s.objectsMerged,
          totalUpdatesReceived := s.totalUpdatesReceived + s.updatesReceived }
        ({ s₁ with objectsMerged := 0, updatesReceived := 0 },
         { emitted := [.obj o],
           metrics := [("total_objects_merged", s₁.totalObjectsMerged),
                       ("objects_merged_since_last_publication", s₁.objectsMerged),
                       ("total_updates_received", s₁.totalUpdatesReceived),
                       ("updates_received_since_last_publication", s₁.updatesReceived),
                       ("cycles_since_reset", s₁.cyclesSinceReset)] },
         none)
      else
        (s, Obs.empty, some "mMergedObjectIntegral variant has no value")

/-- The publication part of `FullHistoryMerger::run` (lines 79-88): if the
timer input is valid and a template is set, increment `mCyclesSinceReset`,
merge, publish, and then clear if the policy is LastDifference, or NCycles
with its parameter equal to the new `mCyclesSinceReset`. -/
def runTick (cfg : MergerConfig) (snapshotOk : Bool) (s : MergerState)
    (timerValid : Bool) : MergerState × Obs × Option String :=
  if timerValid ∧ s.firstObjectId ≠ "" then
    let s₁ := { s with cyclesSinceReset := s.cyclesSinceReset + 1 }
    match mergeCache s₁ with
    | (s₂, some msg) => (s₂, Obs.empty, some msg)
    | (s₂, none) =>
        match publish snapshotOk s₂ with
        | (s₃, obs, some msg) => (s₃, obs, some msg)
        | (s₃, obs, none) =>
            if cfg.mergedObjectTimespan.value = .LastDifference ∨
               (cfg.mergedObjectTimespan.value = .NCycles ∧
                cfg.mergedObjectTimespan.param = s₃.cyclesSinceReset) then
              (clear s₃, obs, none)
            else
              (s₃, obs, none)
  else
    (s, Obs.empty, none)

/-- `FullHistoryMerger::run(ctx)` (lines 67-89): ingest all data inputs, then
run the tick part.  An exception from the ingest loop propagates before the
tick part is reached. -/
def run (cfg : MergerConfig) (snapshotOk : Bool) (s : MergerState)
    (refs : List DataRef) (timerValid : Bool) : MergerState × Obs × Option String :=
  match runLoop s refs with
  | (s₁, some msg) => (s₁, Obs.empty, some msg)
  | (s₁, none) => runTick cfg snapshotOk s₁ timerValid

/-- `FullHistoryMerger::endOfStream` (lines 91-95): one final merge and
publish, with no cycle increment and no policy-driven clear. -/
def endOfStream (snapshotOk : Bool) (s : MergerState) :
    MergerState × Obs × Option String :=
  match mergeCache s with
  | (s₁, some msg) => (s₁, Obs.empty, some msg)
  | (s₁, none) => publish snapshotOk s₁

/-- Driver: fire the publication timer `n` times in a row with no new data
inputs, counting how many merged objects are emitted in total. -/
def iterTick (cfg : MergerConfig) : Nat → MergerState → MergerState × Nat
  | 0, s => (s, 0)
  | n + 1, s =>
      let r := run cfg true s [] true
      let p := iterTick cfg n r.1
      (p.1, r.2.1.emitted.length + p.2)

/-- Driver: feed a whole input sequence, one `run` invocation per entry
(data refs, timer validity, egress success), accumulating the observable
output.  An exception terminates the processing, as it propagates out of
`run`. -/
def runTrace (cfg : MergerConfig) :
    MergerState → List (List DataRef × Bool × Bool) → MergerState × Obs × Option String
  | s, [] => (s, Obs.empty, none)
  | s, (refs, timer, snap) :: rest =>
      match run cfg snap s refs timer with
      | (s₁, obs, some msg) => (s₁, obs, some msg)
      | (s₁, obs, none) =>
          match runTrace cfg s₁ rest with
          | (s₂, obs₂, err) => (s₂, Obs.append obs obs₂, err)

/-- States reachable from the freshly constructed instance by the four state
transformers of the component: ingesting an update, merging the cache,
publishing, and clearing. -/
inductive Reachable : MergerState → Prop where
  | init : Reachable initState
  | upsert (s : MergerState) (ref : DataRef) :
      Reachable s → Reachable (updateCache s ref).1
  | merge (s : MergerState) : Reachable s → Reachable (mergeCache s).1
  | pub (s : MergerState) (b : Bool) : Reachable s → Reachable (publish b s).1
  | reset (s : MergerState) : Reachable s → Reachable (clear s)

/-- The store part of the invariant: if no template is set the cache is
empty, and the template's sourceID is not a cache key. -/
def StoreInv (s : MergerState) : Prop :=
  (s.firstObjectId = "" → s.cache = []) ∧
  s.firstObjectId ∉ s.cache.map Prod.fst

/-- The two non-collection payload kinds of the `ObjectStore` variant: a
plain TObject (merged by `algorithm::merge`, lines 158-165) and an object
implementing `MergeInterface` (merged by `target->merge`, lines 167-174).
Both are counted once per merged object. -/
inductive SingleKind where
  | tobj
  | mergeIface
  deriving DecidableEq, Repr

/-- Build the payload object of the given non-collection kind. -/
def SingleKind.make : SingleKind → Int → MObject
  | .tobj, v => .tobj v
  | .mergeIface, v => .mergeIface v

/-- Concrete fixture: one update from origin A. -/
def refA : DataRef :=
  { dataOrigin := "A", dataDescription := "D", subSpecification := 0,
    payload := RawPayload.good (.tobj 1) }

/-- Concrete fixture: one update from origin B. -/
def refB : DataRef :=
  { dataOrigin := "B", dataDescription := "D", subSpecification := 0,
    payload := RawPayload.good (.tobj 1) }

/-- Concrete fixture: one update from origin C. -/
def refC : DataRef :=
  { dataOrigin := "C", dataDescription := "D", subSpecification := 0,
    payload := RawPayload.good (.tobj 1) }

/-- Concrete fixture: a MergeInterface-kind update from origin A. -/
def refAm : DataRef :=
  { dataOrigin := "A", dataDescription := "D", subSpecification := 0,
    payload := RawPayload.good (.mergeIface 1) }

/-- Concrete fixture: a MergeInterface-kind update from origin B. -/
def refBm : DataRef :=
  { dataOrigin := "B", dataDescription := "D", subSpecification := 0,
    payload := RawPayload.good (.mergeIface 1) }

/-- Concrete fixture: a MergeInterface-kind update from origin C. -/
def refCm : DataRef :=
  { dataOrigin := "C", dataDescription := "D", subSpecification := 0,
    payload := RawPayload.good (.mergeIface 1) }

/-! ## General lemmas about the embedded operations -/

theorem sourceId_ne_empty (ref : DataRef) : sourceId ref ≠ "" := by
  intro h
  have h₁ := congrArg String.length h
  rw [show ("" : String).length = 0 from rfl] at h₁
  simp only [sourceId, String.length_append,
    show ("/" : String).length = 1 from rfl] at h₁
  omega

theorem mapInsert_mapInsert (m : List (String × MObject)) (k : String)
    (v w : MObject) : mapInsert (mapInsert m k v) k w = mapInsert m k w := by
  induction m with
  | nil => simp [mapInsert]
  | cons e rest ih =>
      by_cases hk : e.1 = k
      · simp [mapInsert, hk]
      · simp [mapInsert, hk, ih]

theorem mem_keys_mapInsert (m : List (String × MObject)) (k : String)
    (v : MObject) (x : String) (hx : x ∈ (mapInsert m k v).map Prod.fst) :
    x = k ∨ x ∈ m.map Prod.fst := by
  induction m with
  | nil => simpa [mapInsert] using hx
  | cons e rest ih =>
      by_cases hk : e.1 = k
      · simp [mapInsert, hk] at hx
        rcases hx with h | h
        · exact Or.inl h
        · exact Or.inr (by simp [h])
      · simp [mapInsert, hk] at hx
        rcases hx with h | h
        · exact Or.inr (by simp [h])
        · rcases ih (by simpa using h) with h₁ | h₁
          · exact Or.inl h₁
          · exact Or.inr (by simp [h₁])

/-! ## Claims -/

/-- C5: after `clear()`, invoked on any prior state, the instance holds no
template (empty sourceID, null payload), the cache is empty, and all five
counters — cyclesSinceReset, objectsMerged, totalObjectsMerged,
updatesReceived, totalUpdatesReceived — are zero, the cumulative totals
included. -/
theorem clear_resets_all_state (s : MergerState) :
    (clear s).firstObjectId = "" ∧ (clear s).firstObjectPayload = none ∧
    (clear s).cache = [] ∧
    (clear s).cyclesSinceReset = 0 ∧ (clear s).objectsMerged = 0 ∧
    (clear s).totalObjectsMerged = 0 ∧ (clear s).updatesReceived = 0 ∧
    (clear s).totalUpdatesReceived = 0 :=
  ⟨rfl, rfl, rfl, rfl, rfl, rfl, rfl, rfl⟩

/-- C10: when the egress handoff reports failure for a non-monostate merged
result, `publish` throws before touching any counter: the state is returned
exactly as it was, nothing is emitted and no metrics are sent. -/
theorem publish_snapshot_failure_atomic (s : MergerState) (o : MObject)
    (h : s.mergedObject = ObjectStore.obj o) :
    publish false s =
      (s, Obs.empty, some "mMergedObjectIntegral variant has no value") := by
  simp [publish, h]

theorem publish_snapshot_failure_atomic_witness :
    ({ initState with mergedObject := ObjectStore.obj (.tobj 5) } :
        MergerState).mergedObject = ObjectStore.obj (.tobj 5) ∧
    publish false { initState with mergedObject := ObjectStore.obj (.tobj 5) } =
      ({ initState with mergedObject := ObjectStore.obj (.tobj 5) },
       Obs.empty, some "mMergedObjectIntegral variant has no value") :=
  ⟨rfl, publish_snapshot_failure_atomic _ (.tobj 5) rfl⟩

/-- C8: a decode failure on an ingress update bound for the cache is surfaced
to the caller of `updateCache` as an error, and the state is returned exactly
unchanged — so the instance continues operating on subsequent valid updates as
if the bad one had never arrived. -/
theorem updateCache_decode_failure_surfaced (s : MergerState) (ref : DataRef)
    (msg : String) (hb : ref.payload = RawPayload.bad msg)
    (ht : ¬ s.firstObjectId = "") (hd : ¬ s.firstObjectId = sourceId ref) :
    updateCache s ref = (s, some msg) := by
  simp [updateCache, ht, hd, extractObjectFrom, hb]

theorem updateCache_decode_failure_surfaced_witness :
    (({ initState with
          firstObjectId := "A/D/0"
          firstObjectPayload := some (RawPayload.good (.tobj 1)) } :
        MergerState).firstObjectId = "A/D/0") ∧
    updateCache
      { initState with
          firstObjectId := "A/D/0"
          firstObjectPayload := some (RawPayload.good (.tobj 1)) }
      { dataOrigin := "B", dataDescription := "D", subSpecification := 0,
        payload := RawPayload.bad "oops" } =
      ({ initState with
           firstObjectId := "A/D/0"
           firstObjectPayload := some (RawPayload.good (.tobj 1)) },
       some "oops") :=
  ⟨rfl,
   updateCache_decode_failure_surfaced _ _ "oops" rfl (by decide) (by decide)⟩

/-- C1 counterexample: at the freshly constructed state (no template set since
the last reset) the merge does return Empty (monostate), but the subsequent
publish still sends metrics to the monitoring collector — the claim that "no
metrics are sent" is false in the code, which falls through to the metric
block after logging the no-op. -/
theorem publish_after_empty_merge_sends_metrics :
    (mergeCache initState).1.mergedObject = ObjectStore.monostate ∧
    (publish true (mergeCache initState).1).2.1.metrics ≠ [] := by
  decide

/-- C1 (amended): in any state where no template has been set since the last
reset (null template payload, monostate merged object, per-cycle counters
zero), merge returns Empty and leaves the state untouched, and a subsequent
publish emits nothing, raises no error, and mutates none of the five counters
— but it does send the five metrics, carrying the unchanged values. -/
theorem publish_after_empty_merge_noop (s : MergerState) (b : Bool)
    (hp : s.firstObjectPayload = none)
    (hm : s.mergedObject = ObjectStore.monostate)
    (ho : s.objectsMerged = 0) (hu : s.updatesReceived = 0) :
    mergeCache s = (s, none) ∧
    (publish b s).2.1.emitted = [] ∧
    (publish b s).2.2 = none ∧
    (publish b s).1.objectsMerged = s.objectsMerged ∧
    (publish b s).1.updatesReceived = s.updatesReceived ∧
    (publish b s).1.totalObjectsMerged = s.totalObjectsMerged ∧
    (publish b s).1.totalUpdatesReceived = s.totalUpdatesReceived ∧
    (publish b s).1.cyclesSinceReset = s.cyclesSinceReset ∧
    (publish b s).2.1.metrics =
      [("total_objects_merged", s.totalObjectsMerged),
       ("objects_merged_since_last_publication", 0),
       ("total_updates_received", s.totalUpdatesReceived),
       ("updates_received_since_last_publication", 0),
       ("cycles_since_reset", s.cyclesSinceReset)] := by
  simp [mergeCache, hp, publish, hm, ho, hu]

theorem publish_after_empty_merge_noop_witness :
    mergeCache initState = (initState, none) ∧
    (publish true initState).2.1.emitted = [] ∧
    (publish true initState).2.2 = none ∧
    (publish true initState).1.objectsMerged = initState.objectsMerged ∧
    (publish true initState).1.updatesReceived = initState.updatesReceived ∧
    (publish true initState).1.totalObjectsMerged =
      initState.totalObjectsMerged ∧
    (publish true initState).1.totalUpdatesReceived =
      initState.totalUpdatesReceived ∧
    (publish true initState).1.cyclesSinceReset = initState.cyclesSinceReset ∧
    (publish true initState).2.1.metrics =
      [("total_objects_merged", initState.totalObjectsMerged),
       ("objects_merged_since_last_publication", 0),
       ("total_updates_received", initState.totalUpdatesReceived),
       ("updates_received_since_last_publication", 0),
       ("cycles_since_reset", initState.cyclesSinceReset)] :=
  publish_after_empty_merge_noop initState true rfl rfl rfl rfl

/-- C2 counterexample: with a Collection-kind template of length 2 and one
cache entry of length 2 (M = 1, N = 2), the merge increases the counter by 3
(the template counts as 1, not as its element length), not by (M+1)*N = 4 as
the claim states. -/
theorem mergeCache_vec_template_counts_one :
    (mergeCache { initState with
        firstObjectId := "A/D/0"
        firstObjectPayload := some (RawPayload.good (MObject.vec [1, 2]))
        cache := [("B/D/0", MObject.vec [3, 4])] }).1.objectsMerged = 3 ∧
    (3 : Nat) ≠ (1 + 1) * 2 := by
  decide

theorem mergeVecLoop_spec (l : List (String × MObject)) :
    ∀ (acc : List Int) (om : Nat),
      (∀ e ∈ l, ∃ ws, e.2 = MObject.vec ws ∧ ws.length = acc.length) →
      (mergeVecLoop acc om l).1.length = acc.length ∧
      (mergeVecLoop acc om l).2.1 = om + l.length * acc.length ∧
      (mergeVecLoop acc om l).2.2 = none := by
  induction l with
  | nil =>
      intro acc om _
      simp [mergeVecLoop]
  | cons e rest ih =>
      intro acc om h
      obtain ⟨k, ev⟩ := e
      obtain ⟨ws, hw, hl⟩ := h (k, ev) (by simp)
      simp only at hw
      subst hw
      have hmerge : vecMerge acc ws =
          .ok (List.zipWith (fun a b => a + b) acc ws) := by
        simp [vecMerge, hl]
      have hlen : (List.zipWith (fun a b : Int => a + b) acc ws).length
          = acc.length := by
        simp [hl]
      simp only [mergeVecLoop, hmerge]
      have h₂ : ∀ e ∈ rest, ∃ ws₁, e.2 = MObject.vec ws₁ ∧
          ws₁.length = (List.zipWith (fun a b : Int => a + b) acc ws).length := by
        intro e he
        obtain ⟨ws₁, hw₁, hl₁⟩ := h e (by simp [he])
        exact ⟨ws₁, hw₁, by rw [hlen, hl₁]⟩
      obtain ⟨ih₁, ih₂, ih₃⟩ := ih _ _ h₂
      refine ⟨by rw [ih₁, hlen], ?_, ih₃⟩
      rw [ih₂, hlen]
      simp [List.length_cons]
      ring

/-- C2 (amended): in every merge over Collection-kind payloads, deserializing
the template contributes 1 (not its element length) to objectsMergedThisCycle,
and each merged cache entry of length N contributes N; so for a template of
length N and M equal-length-N cache entries the counter increases by
1 + M * N, and the merge raises no error. -/
theorem mergeCache_vec_counter (s : MergerState) (vs : List Int)
    (hp : s.firstObjectPayload = some (RawPayload.good (MObject.vec vs)))
    (hc : ∀ e ∈ s.cache, ∃ ws, e.2 = MObject.vec ws ∧ ws.length = vs.length) :
    (mergeCache s).1.objectsMerged =
      s.objectsMerged + 1 + s.cache.length * vs.length ∧
    (mergeCache s).2 = none := by
  obtain ⟨h₁, h₂, h₃⟩ := mergeVecLoop_spec s.cache vs (s.objectsMerged + 1) hc
  simp only [mergeCache, hp, extractObjectFrom]
  refine ⟨?_, h₃⟩
  rw [h₂]

theorem mergeCache_vec_counter_witness :
    (({ initState with
        firstObjectId := "A/D/0"
        firstObjectPayload := some (RawPayload.good (MObject.vec [1, 2]))
        cache := [("B/D/0", MObject.vec [3, 4]), ("C/D/0", MObject.vec [5, 6])] } :
      MergerState).firstObjectPayload
        = some (RawPayload.good (MObject.vec [1, 2]))) ∧
    (mergeCache { initState with
        firstObjectId := "A/D/0"
        firstObjectPayload := some (RawPayload.good (MObject.vec [1, 2]))
        cache := [("B/D/0", MObject.vec [3, 4]), ("C/D/0", MObject.vec [5, 6])] }
      ).1.objectsMerged = 0 + 1 + 2 * 2 ∧
    (mergeCache { initState with
        firstObjectId := "A/D/0"
        firstObjectPayload := some (RawPayload.good (MObject.vec [1, 2]))
        cache := [("B/D/0", MObject.vec [3, 4]), ("C/D/0", MObject.vec [5, 6])] }
      ).2 = none := by
  refine ⟨rfl, ?_⟩
  refine mergeCache_vec_counter _ [1, 2] rfl ?_
  intro e he
  simp only [List.mem_cons, List.not_mem_nil, or_false] at he
  rcases he with rfl | rfl
  · exact ⟨[3, 4], rfl, rfl⟩
  · exact ⟨[5, 6], rfl, rfl⟩

/-- C6: two updates from the same origin within one cycle are last-write-wins:
ingesting u₁ and then u₂ leaves the instance in exactly the state reached by
ingesting u₂ alone, whether the origin occupies the template slot or a cache
entry — so a merge at the next tick sees only u₂'s payload. -/
theorem upsert_last_write_wins (s : MergerState) (u₁ u₂ : DataRef)
    (hs : sourceId u₁ = sourceId u₂)
    (h₁ : (updateCache s u₁).2 = none)
    (h₂ : (updateCache (updateCache s u₁).1 u₂).2 = none) :
    updateCache (updateCache s u₁).1 u₂ = updateCache s u₂ := by
  by_cases hA : s.firstObjectId = "" ∨ s.firstObjectId = sourceId u₁
  · have hA₂ : s.firstObjectId = "" ∨ s.firstObjectId = sourceId u₂ := hs ▸ hA
    have hB : sourceId u₁ = "" ∨ sourceId u₁ = sourceId u₂ := Or.inr hs
    simp [updateCache, hA, hA₂, hB, hs]
  · push_neg at hA
    have hd₂ : ¬ s.firstObjectId = sourceId u₂ := hs ▸ hA.2
    cases hex₁ : extractObjectFrom u₁.payload with
    | error msg =>
        exfalso
        simp [updateCache, hA.1, hA.2, hex₁] at h₁
    | ok o₁ =>
        have e₁ : updateCache s u₁ =
            ({ s with cache := mapInsert s.cache (sourceId u₁) o₁ }, none) := by
          simp [updateCache, hA.1, hA.2, hex₁]
        cases hex₂ : extractObjectFrom u₂.payload with
        | error msg =>
            exfalso
            rw [e₁] at h₂
            simp [updateCache, hA.1, hd₂, hex₂] at h₂
        | ok o₂ =>
            rw [e₁]
            simp [updateCache, hA.1, hd₂, hex₂, hs, mapInsert_mapInsert]

theorem upsert_last_write_wins_witness :
    sourceId { dataOrigin := "B", dataDescription := "D",
               subSpecification := 0, payload := RawPayload.good (.tobj 2) } =
      sourceId { dataOrigin := "B", dataDescription := "D",
                 subSpecification := 0, payload := RawPayload.good (.tobj 7) } ∧
    (updateCache
      { initState with
          firstObjectId := "A/D/0"
          firstObjectPayload := some (RawPayload.good (.tobj 1)) }
      { dataOrigin := "B", dataDescription := "D", subSpecification := 0,
        payload := RawPayload.good (.tobj 2) }).2 = none ∧
    (updateCache
      (updateCache
        { initState with
            firstObjectId := "A/D/0"
            firstObjectPayload := some (RawPayload.good (.tobj 1)) }
        { dataOrigin := "B", dataDescription := "D", subSpecification := 0,
          payload := RawPayload.good (.tobj 2) }).1
      { dataOrigin := "B", dataDescription := "D", subSpecification := 0,
        payload := RawPayload.good (.tobj 7) }).2 = none ∧
    updateCache
      (updateCache
        { initState with
            firstObjectId := "A/D/0"
            firstObjectPayload := some (RawPayload.good (.tobj 1)) }
        { dataOrigin := "B", dataDescription := "D", subSpecification := 0,
          payload := RawPayload.good (.tobj 2) }).1
      { dataOrigin := "B", dataDescription := "D", subSpecification := 0,
        payload := RawPayload.good (.tobj 7) } =
    updateCache
      { initState with
          firstObjectId := "A/D/0"
          firstObjectPayload := some (RawPayload.good (.tobj 1)) }
      { dataOrigin := "B", dataDescription := "D", subSpecification := 0,
        payload := RawPayload.good (.tobj 7) } := by
  refine ⟨by decide, by decide, by decide, ?_⟩
  exact upsert_last_write_wins _ _ _ (by decide) (by decide) (by decide)

/-- The fields of the snapshot store that `mergeCache` never writes: it only
sets the merged object and the objectsMerged counter. -/
theorem mergeCache_preserves (s : MergerState) :
    (mergeCache s).1.firstObjectId = s.firstObjectId ∧
    (mergeCache s).1.firstObjectPayload = s.firstObjectPayload ∧
    (mergeCache s).1.cache = s.cache ∧
    (mergeCache s).1.cyclesSinceReset = s.cyclesSinceReset ∧
    (mergeCache s).1.updatesReceived = s.updatesReceived ∧
    (mergeCache s).1.totalObjectsMerged = s.totalObjectsMerged ∧
    (mergeCache s).1.totalUpdatesReceived = s.totalUpdatesReceived := by
  cases hp : s.firstObjectPayload with
  | none => simp [mergeCache, hp]
  | some raw =>
      cases hex : extractObjectFrom raw with
      | error msg => simp [mergeCache, hp, hex]
      | ok first => cases first <;> simp [mergeCache, hp, hex]

/-- The fields of the snapshot store that `publish` never writes: it only
flushes counters and zeroes the per-cycle ones. -/
theorem publish_preserves (b : Bool) (s : MergerState) :
    ((publish b s).1.firstObjectId = s.firstObjectId ∧
     (publish b s).1.firstObjectPayload = s.firstObjectPayload ∧
     (publish b s).1.cache = s.cache ∧
     (publish b s).1.cyclesSinceReset = s.cyclesSinceReset) := by
  cases hm : s.mergedObject with
  | monostate => simp [publish, hm]
  | obj o => cases b <;> simp [publish, hm]

theorem updateCache_storeInv (s : MergerState) (ref : DataRef)
    (h : StoreInv s) : StoreInv (updateCache s ref).1 := by
  by_cases hA : s.firstObjectId = "" ∨ s.firstObjectId = sourceId ref
  · have e : (updateCache s ref).1 =
        { s with firstObjectId := sourceId ref,
                 firstObjectPayload := some ref.payload } := by
      simp [updateCache, hA]
    rw [e]
    rcases hA with hA | hA
    · have hc : s.cache = [] := h.1 hA
      exact ⟨fun _ => hc, by simp [hc]⟩
    · exact ⟨fun hz => absurd (hA ▸ hz) (sourceId_ne_empty ref), hA ▸ h.2⟩
  · push_neg at hA
    cases hex : extractObjectFrom ref.payload with
    | error msg =>
        have e : (updateCache s ref).1 = s := by
          simp [updateCache, hA.1, hA.2, hex]
        rw [e]; exact h
    | ok o =>
        have e : (updateCache s ref).1 =
            { s with cache := mapInsert s.cache (sourceId ref) o } := by
          simp [updateCache, hA.1, hA.2, hex]
        rw [e]
        refine ⟨fun hz => absurd hz hA.1, fun hmem => ?_⟩
        rcases mem_keys_mapInsert _ _ _ _ hmem with heq | hmem₁
        · exact hA.2 heq
        · exact h.2 hmem₁

theorem reachable_storeInv (s : MergerState) (h : Reachable s) : StoreInv s := by
  induction h with
  | init => exact ⟨fun _ => rfl, by simp [initState]⟩
  | upsert s ref _ ih => exact updateCache_storeInv s ref ih
  | merge s _ ih =>
      obtain ⟨h₁, _, h₃, _⟩ := mergeCache_preserves s
      exact ⟨fun hz => by rw [h₃]; exact ih.1 (h₁ ▸ hz), by
        rw [h₁, h₃]; exact ih.2⟩
  | pub s b _ ih =>
      obtain ⟨h₁, _, h₃, _⟩ := publish_preserves b s
      exact ⟨fun hz => by rw [h₃]; exact ih.1 (h₁ ▸ hz), by
        rw [h₁, h₃]; exact ih.2⟩
  | reset s _ => exact ⟨fun _ => rfl, by simp [clear, initState]⟩

/-- C7: in every state reachable from the initial empty state by the four
operations (upsert of an update, merge, publish, clear), the sourceID held in
the template slot never appears as a key of the cache mapping. -/
theorem template_origin_not_cache_key (s : MergerState) (h : Reachable s) :
    s.firstObjectId ∉ s.cache.map Prod.fst :=
  (reachable_storeInv s h).2

theorem template_origin_not_cache_key_witness :
    (updateCache
      (updateCache initState
        { dataOrigin := "A", dataDescription := "D", subSpecification := 0,
          payload := RawPayload.good (.tobj 1) }).1
      { dataOrigin := "B", dataDescription := "D", subSpecification := 0,
        payload := RawPayload.good (.tobj 2) }).1.firstObjectId ∉
    ((updateCache
      (updateCache initState
        { dataOrigin := "A", dataDescription := "D", subSpecification := 0,
          payload := RawPayload.good (.tobj 1) }).1
      { dataOrigin := "B", dataDescription := "D", subSpecification := 0,
        payload := RawPayload.good (.tobj 2) }).1.cache.map Prod.fst) :=
  template_origin_not_cache_key _
    (Reachable.upsert _ _ (Reachable.upsert _ _ Reachable.init))

theorem mapInsert_of_not_mem (m : List (String × MObject)) (k : String)
    (v : MObject) (h : k ∉ m.map Prod.fst) : mapInsert m k v = m ++ [(k, v)] := by
  induction m with
  | nil => simp [mapInsert]
  | cons e rest ih =>
      simp only [List.map_cons, List.mem_cons] at h
      push_neg at h
      simp [mapInsert, Ne.symm h.1, ih h.2]

theorem mergeTObjLoop_spec (l : List (String × MObject)) :
    ∀ (acc : Int) (om : Nat),
      (∀ e ∈ l, ∃ v, e.2 = MObject.tobj v) →
      (mergeTObjLoop acc om l).2.1 = om + l.length ∧
      (mergeTObjLoop acc om l).2.2 = none := by
  induction l with
  | nil => intro acc om _; simp [mergeTObjLoop]
  | cons e rest ih =>
      intro acc om h
      obtain ⟨k, ev⟩ := e
      obtain ⟨v, hv⟩ := h (k, ev) (by simp)
      simp only at hv
      subst hv
      obtain ⟨ih₁, ih₂⟩ := ih (acc + v) (om + 1) (fun e he => h e (by simp [he]))
      simp only [mergeTObjLoop]
      exact ⟨by rw [ih₁]; simp [List.length_cons]; omega, ih₂⟩

theorem mergeIfaceLoop_spec (l : List (String × MObject)) :
    ∀ (acc : Int) (om : Nat),
      (∀ e ∈ l, ∃ v, e.2 = MObject.mergeIface v) →
      (mergeIfaceLoop acc om l).2.1 = om + l.length ∧
      (mergeIfaceLoop acc om l).2.2 = none := by
  induction l with
  | nil => intro acc om _; simp [mergeIfaceLoop]
  | cons e rest ih =>
      intro acc om h
      obtain ⟨k, ev⟩ := e
      obtain ⟨v, hv⟩ := h (k, ev) (by simp)
      simp only at hv
      subst hv
      obtain ⟨ih₁, ih₂⟩ := ih (acc + v) (om + 1) (fun e he => h e (by simp [he]))
      simp only [mergeIfaceLoop]
      exact ⟨by rw [ih₁]; simp [List.length_cons]; omega, ih₂⟩

/-- Merging a store whose template and cache entries all carry the same
non-collection kind (plain TObject or MergeInterface): no error, the counter
grows by 1 for the template plus 1 per cache entry, and updatesReceived is
untouched. -/
theorem mergeCache_single_counter (s : MergerState) (κ : SingleKind) (v : Int)
    (hp : s.firstObjectPayload = some (RawPayload.good (κ.make v)))
    (hc : ∀ e ∈ s.cache, ∃ w, e.2 = κ.make w) :
    (mergeCache s).2 = none ∧
    (mergeCache s).1.objectsMerged = s.objectsMerged + 1 + s.cache.length ∧
    (mergeCache s).1.updatesReceived = s.updatesReceived := by
  cases κ with
  | tobj =>
      simp only [SingleKind.make] at hp hc
      obtain ⟨l₁, l₂⟩ := mergeTObjLoop_spec s.cache v (s.objectsMerged + 1) hc
      simp only [mergeCache, hp, extractObjectFrom]
      exact ⟨l₂, by rw [l₁], trivial⟩
  | mergeIface =>
      simp only [SingleKind.make] at hp hc
      obtain ⟨l₁, l₂⟩ := mergeIfaceLoop_spec s.cache v (s.objectsMerged + 1) hc
      simp only [mergeCache, hp, extractObjectFrom]
      exact ⟨l₂, by rw [l₁], trivial⟩

/-- Processing a list of data inputs whose sourceIDs are fresh (distinct from
the template, from the existing cache keys and from each other) and whose
payloads all decode to the non-collection kind κ: each lands in the cache,
each is counted in updatesReceived, and the template and the remaining
counters are untouched. -/
theorem runLoop_fill (κ : SingleKind) (refs : List DataRef) :
    ∀ s : MergerState,
      s.firstObjectId ≠ "" →
      (∀ r ∈ refs, sourceId r ≠ s.firstObjectId ∧
        sourceId r ∉ s.cache.map Prod.fst ∧
        ∃ v, r.payload = RawPayload.good (κ.make v)) →
      (refs.map sourceId).Nodup →
      (∀ e ∈ s.cache, ∃ v, e.2 = κ.make v) →
      (runLoop s refs).2 = none ∧
      (runLoop s refs).1.firstObjectId = s.firstObjectId ∧
      (runLoop s refs).1.firstObjectPayload = s.firstObjectPayload ∧
      (runLoop s refs).1.cache.length = s.cache.length + refs.length ∧
      (∀ e ∈ (runLoop s refs).1.cache, ∃ v, e.2 = κ.make v) ∧
      (runLoop s refs).1.updatesReceived = s.updatesReceived + refs.length ∧
      (runLoop s refs).1.objectsMerged = s.objectsMerged := by
  induction refs with
  | nil =>
      intro s _ _ _ hc
      exact ⟨rfl, rfl, rfl, rfl, hc, rfl, rfl⟩
  | cons r rest ih =>
      intro s hne h hnd hc
      obtain ⟨hid, hkey, v, hpay⟩ := h r (by simp)
      have hcond : ¬ (s.firstObjectId = "" ∨ s.firstObjectId = sourceId r) := by
        push_neg
        exact ⟨hne, fun he => hid he.symm⟩
      have e₁ : updateCache s r =
          ({ s with cache := mapInsert s.cache (sourceId r) (κ.make v) },
           none) := by
        simp [updateCache, hcond, hpay, extractObjectFrom]
      have ecache : mapInsert s.cache (sourceId r) (κ.make v) =
          s.cache ++ [(sourceId r, κ.make v)] :=
        mapInsert_of_not_mem _ _ _ hkey
      simp only [runLoop, e₁]
      have hnd₁ : (rest.map sourceId).Nodup := by
        simp only [List.map_cons, List.nodup_cons] at hnd
        exact hnd.2
      have hhead : sourceId r ∉ rest.map sourceId := by
        simp only [List.map_cons, List.nodup_cons] at hnd
        exact hnd.1
      obtain ⟨g₁, g₂, g₃, g₄, g₅, g₆, g₇⟩ := ih
        { s with
            cache := mapInsert s.cache (sourceId r) (κ.make v)
            updatesReceived := s.updatesReceived + 1 }
        hne
        (by
          intro r₁ hr₁
          obtain ⟨k₁, k₂, w, k₃⟩ := h r₁ (by simp [hr₁])
          refine ⟨k₁, ?_, w, k₃⟩
          simp only [ecache, List.map_append, List.mem_append]
          push_neg
          refine ⟨k₂, ?_⟩
          simp only [List.map_cons, List.map_nil, List.mem_singleton]
          intro he
          exact hhead (he ▸ List.mem_map_of_mem sourceId hr₁))
        hnd₁
        (by
          intro e he
          rw [ecache] at he
          rcases List.mem_append.mp he with he₁ | he₁
          · exact hc e he₁
          · simp only [List.mem_singleton] at he₁
            exact ⟨v, by rw [he₁]⟩)
      refine ⟨g₁, g₂, g₃, ?_, g₅, ?_, g₇⟩
      · rw [g₄]
        simp only [ecache, List.length_append, List.length_cons]
        simp
        omega
      · rw [g₆]
        simp only [List.length_cons]
        omega

/-- C4: for any N ≥ 1 inputs from N distinct origins, each a single update of
the same non-collection kind κ — plain TObject or MergeInterface — ingested
in one cycle from the freshly reset state and followed by a merge: the merge
errors out nowhere, objectsMergedThisCycle equals N (the first origin's
template counted once, plus N−1 cache merges) and updatesReceivedThisCycle
equals N. -/
theorem n_origins_counters (κ : SingleKind) (refs : List DataRef)
    (hne : refs ≠ [])
    (hpay : ∀ r ∈ refs, ∃ v, r.payload = RawPayload.good (κ.make v))
    (hnd : (refs.map sourceId).Nodup) :
    (runLoop initState refs).2 = none ∧
    (mergeCache (runLoop initState refs).1).2 = none ∧
    (mergeCache (runLoop initState refs).1).1.objectsMerged = refs.length ∧
    (mergeCache (runLoop initState refs).1).1.updatesReceived = refs.length := by
  match refs, hne with
  | r₀ :: rest, _ =>
    obtain ⟨v₀, hpay₀⟩ := hpay r₀ (by simp)
    have e₁ : updateCache initState r₀ =
        ({ initState with
            firstObjectId := sourceId r₀
            firstObjectPayload := some r₀.payload }, none) := by
      simp [updateCache, initState]
    simp only [runLoop, e₁]
    have hnd₁ : (rest.map sourceId).Nodup := by
      simp only [List.map_cons, List.nodup_cons] at hnd
      exact hnd.2
    have hhead : sourceId r₀ ∉ rest.map sourceId := by
      simp only [List.map_cons, List.nodup_cons] at hnd
      exact hnd.1
    obtain ⟨g₁, g₂, g₃, g₄, g₅, g₆, g₇⟩ := runLoop_fill κ rest
      { initState with
          firstObjectId := sourceId r₀
          firstObjectPayload := some r₀.payload
          updatesReceived := initState.updatesReceived + 1 }
      (sourceId_ne_empty r₀)
      (by
        intro r₁ hr₁
        obtain ⟨w, hw⟩ := hpay r₁ (by simp [hr₁])
        refine ⟨?_, by simp [initState], w, hw⟩
        show sourceId r₁ ≠ sourceId r₀
        intro he
        exact hhead (he ▸ List.mem_map_of_mem sourceId hr₁))
      hnd₁
      (by simp [initState])
    set s₁ := (runLoop
      { initState with
          firstObjectId := sourceId r₀
          firstObjectPayload := some r₀.payload
          updatesReceived := initState.updatesReceived + 1 } rest).1 with hs₁
    have hp₁ : s₁.firstObjectPayload =
        some (RawPayload.good (κ.make v₀)) := by
      rw [g₃]; simp [hpay₀]
    obtain ⟨m₁, m₂, m₃⟩ := mergeCache_single_counter s₁ κ v₀ hp₁ g₅
    refine ⟨g₁, m₁, ?_, ?_⟩
    · rw [m₂, g₇, g₄]
      simp [initState]
      omega
    · rw [m₃, g₆]
      simp [initState]
      omega

theorem n_origins_counters_witness :
    [refAm, refBm, refCm] ≠ ([] : List DataRef) ∧
    (runLoop initState [refAm, refBm, refCm]).2 = none ∧
    (mergeCache (runLoop initState [refAm, refBm, refCm]).1).2 = none ∧
    (mergeCache (runLoop initState [refAm, refBm, refCm]).1).1.objectsMerged
      = 3 ∧
    (mergeCache (runLoop initState [refAm, refBm, refCm]).1).1.updatesReceived
      = 3 := by
  refine ⟨by decide, ?_⟩
  obtain ⟨w₁, w₂, w₃, w₄⟩ := n_origins_counters SingleKind.mergeIface
    [refAm, refBm, refCm] (by decide)
    (by
      intro r hr
      simp only [List.mem_cons, List.not_mem_nil, or_false] at hr
      rcases hr with rfl | rfl | rfl <;> exact ⟨1, rfl⟩)
    (by decide)
  exact ⟨w₁, w₂, w₃, w₄⟩

/-- With a successful egress handoff and a non-monostate merged object,
`publish` emits exactly that object, flushes the per-cycle counters into the
totals, sends the five metrics and zeroes the per-cycle counters. -/
theorem publish_true_obj (s : MergerState) (o : MObject)
    (hm : s.mergedObject = ObjectStore.obj o) :
    publish true s =
      ({ s with
           totalObjectsMerged := s.totalObjectsMerged + s.objectsMerged
           totalUpdatesReceived := s.totalUpdatesReceived + s.updatesReceived
           objectsMerged := 0
           updatesReceived := 0 },
       { emitted := [ObjectStore.obj o]
         metrics :=
           [("total_objects_merged", s.totalObjectsMerged + s.objectsMerged),
            ("objects_merged_since_last_publication", s.objectsMerged),
            ("total_updates_received",
             s.totalUpdatesReceived + s.updatesReceived),
            ("updates_received_since_last_publication", s.updatesReceived),
            ("cycles_since_reset", s.cyclesSinceReset)] },
       none) := by
  simp [publish, hm]

/-- One timer tick with no new data, under policy NCycles(k), on a state
whose template is a decodable TObject and whose cache is empty: it publishes
exactly one object without error; if the incremented cycle count reaches k
the state is fully cleared, otherwise the store survives with the cycle count
incremented. -/
theorem run_tick_steady (k : Nat) (s : MergerState) (v : Int)
    (hid : s.firstObjectId ≠ "")
    (hp : s.firstObjectPayload = some (RawPayload.good (MObject.tobj v)))
    (hc : s.cache = []) :
    (run ⟨⟨.NCycles, k⟩⟩ true s [] true).2.1.emitted.length = 1 ∧
    (run ⟨⟨.NCycles, k⟩⟩ true s [] true).2.2 = none ∧
    (k = s.cyclesSinceReset + 1 →
      (run ⟨⟨.NCycles, k⟩⟩ true s [] true).1 = initState) ∧
    (k ≠ s.cyclesSinceReset + 1 →
      (run ⟨⟨.NCycles, k⟩⟩ true s [] true).1.firstObjectId = s.firstObjectId ∧
      (run ⟨⟨.NCycles, k⟩⟩ true s [] true).1.firstObjectPayload =
        s.firstObjectPayload ∧
      (run ⟨⟨.NCycles, k⟩⟩ true s [] true).1.cache = [] ∧
      (run ⟨⟨.NCycles, k⟩⟩ true s [] true).1.cyclesSinceReset =
        s.cyclesSinceReset + 1) := by
  have h₁ : mergeCache
      { firstObjectId := s.firstObjectId, firstObjectPayload := s.firstObjectPayload,
        cache := [], mergedObject := s.mergedObject,
        cyclesSinceReset := s.cyclesSinceReset + 1,
        totalObjectsMerged := s.totalObjectsMerged, objectsMerged := s.objectsMerged,
        totalUpdatesReceived := s.totalUpdatesReceived,
        updatesReceived := s.updatesReceived } =
      ({ firstObjectId := s.firstObjectId, firstObjectPayload := s.firstObjectPayload,
         cache := [], mergedObject := ObjectStore.obj (MObject.tobj v),
         cyclesSinceReset := s.cyclesSinceReset + 1,
         totalObjectsMerged := s.totalObjectsMerged,
         objectsMerged := s.objectsMerged + 1,
         totalUpdatesReceived := s.totalUpdatesReceived,
         updatesReceived := s.updatesReceived }, none) := by
    simp [mergeCache, hp, extractObjectFrom, mergeTObjLoop]
  have h₂ := publish_true_obj
    { firstObjectId := s.firstObjectId, firstObjectPayload := s.firstObjectPayload,
      cache := [], mergedObject := ObjectStore.obj (MObject.tobj v),
      cyclesSinceReset := s.cyclesSinceReset + 1,
      totalObjectsMerged := s.totalObjectsMerged,
      objectsMerged := s.objectsMerged + 1,
      totalUpdatesReceived := s.totalUpdatesReceived,
      updatesReceived := s.updatesReceived }
    (.tobj v) rfl
  by_cases hk : k = s.cyclesSinceReset + 1
  · simp [run, runLoop, runTick, h₁, h₂, hid, hk, hc, clear]
  · simp [run, runLoop, runTick, h₁, h₂, hid, hk, hc]

/-- Under policy NCycles(k), a steady state (template set to a decodable
TObject, empty cache) with n publish cycles left before the cycle counter
reaches k: after those n quiet timer ticks the state is fully cleared and
exactly n objects were emitted. -/
theorem iterTick_drain (k : Nat) :
    ∀ (n : Nat) (s : MergerState) (v : Int),
      s.firstObjectId ≠ "" →
      s.firstObjectPayload = some (RawPayload.good (MObject.tobj v)) →
      s.cache = [] →
      s.cyclesSinceReset + n = k →
      1 ≤ n →
      iterTick ⟨⟨.NCycles, k⟩⟩ n s = (initState, n) := by
  intro n
  induction n with
  | zero => intro s v _ _ _ _ h1; omega
  | succ n ih =>
      intro s v hid hp hc hsum h1
      obtain ⟨t₁, t₂, t₃, t₄⟩ := run_tick_steady k s v hid hp hc
      by_cases hn : n = 0
      · subst hn
        have hk : k = s.cyclesSinceReset + 1 := by omega
        have e := t₃ hk
        simp [iterTick, e, t₁]
      · have hk : k ≠ s.cyclesSinceReset + 1 := by omega
        obtain ⟨p₁, p₂, p₃, p₄⟩ := t₄ hk
        have hrec := ih (run ⟨⟨.NCycles, k⟩⟩ true s [] true).1 v
          (by rw [p₁]; exact hid) (by rw [p₂]; exact hp) p₃ (by omega)
          (by omega)
        simp [iterTick, hrec, t₁]
        omega

/-- C3: with policy NCycles(k), k ≥ 1, starting from the just-reset empty
state: one update arrives and the timer fires k times (the first tick
together with the update, then k−1 quiet ticks).  Each of the k cycles
publishes exactly one merged object without error, and after the k-th the
state is cleared automatically, so the (k+1)-th cycle begins with an empty
template (isEmpty) and cyclesSinceReset = 0. -/
theorem ncycles_policy_clears_after_k (k : Nat) (hk : 1 ≤ k)
    (r₀ : DataRef) (v : Int)
    (hp : r₀.payload = RawPayload.good (MObject.tobj v)) :
    (run ⟨⟨.NCycles, k⟩⟩ true initState [r₀] true).2.1.emitted.length = 1 ∧
    (run ⟨⟨.NCycles, k⟩⟩ true initState [r₀] true).2.2 = none ∧
    iterTick ⟨⟨.NCycles, k⟩⟩ (k - 1)
      (run ⟨⟨.NCycles, k⟩⟩ true initState [r₀] true).1 = (initState, k - 1) ∧
    (iterTick ⟨⟨.NCycles, k⟩⟩ (k - 1)
      (run ⟨⟨.NCycles, k⟩⟩ true initState [r₀] true).1).1.firstObjectId = "" ∧
    (iterTick ⟨⟨.NCycles, k⟩⟩ (k - 1)
      (run ⟨⟨.NCycles, k⟩⟩ true initState [r₀] true).1).1.cyclesSinceReset
      = 0 := by
  have hu : updateCache initState r₀ =
      ({ initState with
           firstObjectId := sourceId r₀
           firstObjectPayload := some r₀.payload }, none) := by
    simp [updateCache, initState]
  have hl : runLoop initState [r₀] =
      ({ initState with
           firstObjectId := sourceId r₀
           firstObjectPayload := some r₀.payload
           updatesReceived := 1 }, none) := by
    simp only [runLoop, hu]
    simp [initState]
  have hA : run ⟨⟨.NCycles, k⟩⟩ true initState [r₀] true =
      run ⟨⟨.NCycles, k⟩⟩ true
        { initState with
            firstObjectId := sourceId r₀
            firstObjectPayload := some r₀.payload
            updatesReceived := 1 } [] true := by
    simp only [run, hl]
    simp only [runLoop]
  obtain ⟨t₁, t₂, t₃, t₄⟩ := run_tick_steady k
    { initState with
        firstObjectId := sourceId r₀
        firstObjectPayload := some r₀.payload
        updatesReceived := 1 } v
    (sourceId_ne_empty r₀) (by simp [hp]) rfl
  rw [hA]
  by_cases hk1 : k = 1
  · subst hk1
    have e := t₃ rfl
    rw [e]
    exact ⟨t₁, t₂, rfl, rfl, rfl⟩
  · have hk' : k ≠ (0 : Nat) + 1 := by omega
    obtain ⟨p₁, p₂, p₃, p₄⟩ := t₄ hk'
    have hdrain := iterTick_drain k (k - 1)
      (run ⟨⟨.NCycles, k⟩⟩ true
        { initState with
            firstObjectId := sourceId r₀
            firstObjectPayload := some r₀.payload
            updatesReceived := 1 } [] true).1 v
      (by rw [p₁]; exact sourceId_ne_empty r₀)
      (by rw [p₂]; simp [hp, initState]) p₃
      (by rw [p₄]; simp [initState]; omega) (by omega)
    rw [hdrain]
    exact ⟨t₁, t₂, rfl, rfl, rfl⟩

theorem ncycles_policy_clears_after_k_witness :
    1 ≤ 2 ∧
    (run ⟨⟨.NCycles, 2⟩⟩ true initState [refA] true).2.1.emitted.length = 1 ∧
    (run ⟨⟨.NCycles, 2⟩⟩ true initState [refA] true).2.2 = none ∧
    iterTick ⟨⟨.NCycles, 2⟩⟩ (2 - 1)
      (run ⟨⟨.NCycles, 2⟩⟩ true initState [refA] true).1 = (initState, 2 - 1) ∧
    (iterTick ⟨⟨.NCycles, 2⟩⟩ (2 - 1)
      (run ⟨⟨.NCycles, 2⟩⟩ true initState [refA] true).1).1.firstObjectId = "" ∧
    (iterTick ⟨⟨.NCycles, 2⟩⟩ (2 - 1)
      (run ⟨⟨.NCycles, 2⟩⟩ true initState [refA] true).1).1.cyclesSinceReset
      = 0 :=
  ⟨by omega, ncycles_policy_clears_after_k 2 (by omega) refA 1 rfl⟩

theorem updateCache_cycles (s : MergerState) (ref : DataRef) :
    (updateCache s ref).1.cyclesSinceReset = s.cyclesSinceReset := by
  by_cases hA : s.firstObjectId = "" ∨ s.firstObjectId = sourceId ref
  · simp [updateCache, hA]
  · cases hex : extractObjectFrom ref.payload with
    | error msg => simp [updateCache, hA, hex]
    | ok o => simp [updateCache, hA, hex]

theorem runLoop_cycles (refs : List DataRef) :
    ∀ s : MergerState, (runLoop s refs).1.cyclesSinceReset = s.cyclesSinceReset := by
  induction refs with
  | nil => intro s; rfl
  | cons r rest ih =>
      intro s
      have hcy := updateCache_cycles s r
      rcases hu : updateCache s r with ⟨s₁, err⟩
      rw [hu] at hcy
      cases err with
      | none =>
          simp only [runLoop, hu]
          rw [ih]
          exact hcy
      | some msg =>
          simp only [runLoop, hu]
          exact hcy

/-- On a state whose cycle counter is zero, one `runTick` behaves identically
under LastDifference and under NCycles(1), and a successful tick leaves the
counter at zero again. -/
theorem runTick_LD_eq_N1 (p : Nat) (snap t : Bool) (s : MergerState)
    (h0 : s.cyclesSinceReset = 0) :
    runTick ⟨⟨.LastDifference, p⟩⟩ snap s t = runTick ⟨⟨.NCycles, 1⟩⟩ snap s t ∧
    ((runTick ⟨⟨.NCycles, 1⟩⟩ snap s t).2.2 = none →
      (runTick ⟨⟨.NCycles, 1⟩⟩ snap s t).1.cyclesSinceReset = 0) := by
  by_cases hcond : t = true ∧ s.firstObjectId ≠ ""
  · have hm₀ := (mergeCache_preserves
      { s with cyclesSinceReset := s.cyclesSinceReset + 1 }).2.2.2.1
    rcases hm : mergeCache { s with cyclesSinceReset := s.cyclesSinceReset + 1 }
      with ⟨s₃, err₂⟩
    rw [hm] at hm₀
    have hc₃ : s₃.cyclesSinceReset = 1 := by
      rw [hm₀]
      show s.cyclesSinceReset + 1 = 1
      omega
    cases err₂ with
    | some msg => simp [runTick, hcond, hm]
    | none =>
        have hp₀ := (publish_preserves snap s₃).2.2.2
        rcases hpb : publish snap s₃ with ⟨s₄, obs, err₃⟩
        rw [hpb] at hp₀
        have hc₄ : s₄.cyclesSinceReset = 1 := by rw [hp₀, hc₃]
        cases err₃ with
        | some msg => simp [runTick, hcond, hm, hpb]
        | none => simp [runTick, hcond, hm, hpb, hc₄, clear, initState]
  · constructor
    · simp [runTick, hcond]
    · intro _
      simp [runTick, hcond, h0]

theorem run_LD_eq_N1 (p : Nat) (snap : Bool) (refs : List DataRef) (t : Bool)
    (s : MergerState) (h0 : s.cyclesSinceReset = 0) :
    run ⟨⟨.LastDifference, p⟩⟩ snap s refs t = run ⟨⟨.NCycles, 1⟩⟩ snap s refs t ∧
    ((run ⟨⟨.NCycles, 1⟩⟩ snap s refs t).2.2 = none →
      (run ⟨⟨.NCycles, 1⟩⟩ snap s refs t).1.cyclesSinceReset = 0) := by
  have hcy := runLoop_cycles refs s
  rcases hrl : runLoop s refs with ⟨s₁, err⟩
  rw [hrl] at hcy
  cases err with
  | some msg => simp [run, hrl]
  | none =>
      have h1 : s₁.cyclesSinceReset = 0 := by rw [hcy, h0]
      obtain ⟨heq, hinv⟩ := runTick_LD_eq_N1 p snap t s₁ h1
      simp only [run, hrl]
      exact ⟨heq, hinv⟩

/-- C9: the LastDifference retention policy is observably identical to
NCycles(1): starting from the freshly constructed state, every input sequence
(each entry giving the cycle's data inputs, timer validity and egress
response) produces exactly the same final state — all counters included —
the same emissions, the same metrics and the same error under the two
configurations, because under either policy a completed publish is always
followed by a full clear. -/
theorem lastDifference_equals_ncycles_one (p : Nat)
    (trace : List (List DataRef × Bool × Bool)) :
    runTrace ⟨⟨.LastDifference, p⟩⟩ initState trace =
    runTrace ⟨⟨.NCycles, 1⟩⟩ initState trace := by
  have aux : ∀ (tr : List (List DataRef × Bool × Bool)) (s : MergerState),
      s.cyclesSinceReset = 0 →
      runTrace ⟨⟨.LastDifference, p⟩⟩ s tr = runTrace ⟨⟨.NCycles, 1⟩⟩ s tr := by
    intro tr
    induction tr with
    | nil => intro s _; rfl
    | cons c rest ih =>
        intro s h0
        obtain ⟨refs, t, snap⟩ := c
        obtain ⟨heq, hinv⟩ := run_LD_eq_N1 p snap refs t s h0
        rcases hr : run ⟨⟨.NCycles, 1⟩⟩ snap s refs t with ⟨s₁, obs, err⟩
        cases err with
        | some msg => simp [runTrace, heq, hr]
        | none =>
            have h1 : s₁.cyclesSinceReset = 0 := by
              have h₂ := hinv (by rw [hr])
              rw [hr] at h₂
              exact h₂
            simp [runTrace, heq, hr, ih s₁ h1]
  exact aux trace initState rfl

end Mergers
